import Mathlib

/-!
Shallow embedding of the Dygear/r503 fingerprint-module driver.

The repository snapshot carries two generations of the crate:
* `Legacy` embeds the single-file driver `src/src/lib.rs` (frame `Package`,
  `Payload`, `Instruction`, legacy `ConfirmationCode`) together with its
  integration tests in `tests/tests.rs`.
* `Engine` embeds the newer wire engine: `src/src/constants.rs` (the
  `be_enum` enumerations and aura payloads), `src/src/wire_traits.rs`
  (`ToWire`/`FromWire` for integers, arrays and unit) and `src/src/auto.rs`
  (`AutoEnroll` / `AutoIdentify` state machines).  The crate-root items the
  engine uses (`Checksum`, `Error`, `Response`, and the identify-side
  enumerations) are not present under `src/`; those few definitions are
  modelled from the specification and say so in their doc comments.

Machine integers are modelled as `Nat` with explicit `% 2^w` where the Rust
code can wrap; fallible paths return `Option`/`Except`.
-/

namespace R503

namespace Legacy

/-- Package identifier of lib.rs (`enum Identifier`, `repr(u8)`). -/
inductive Identifier
  | Command
  | Data
  | Acknowledge
  | End
deriving DecidableEq

/-- Wire value of an `Identifier` (`impl From<Identifier> for u8`, a
`repr(u8)` discriminant cast). -/
def Identifier.toU8 : Identifier → Nat
  | .Command => 0x01
  | .Data => 0x02
  | .Acknowledge => 0x07
  | .End => 0x08

/-- Instruction opcodes of lib.rs (`enum Instruction`, `repr(u8)`). -/
inductive Instruction
  | GenImg
  | GenChar
  | Match
  | Search
  | RegModel
  | Store
  | LoadChar
  | UpChar
  | DownChar
  | UpImage
  | DownImage
  | DeleteChar
  | Empty
  | SetSysPara
  | ReadSysPara
  | SetPwd
  | VfyPwd
  | GetRandomCode
  | SetAdder
  | ReadInfPage
  | Control
  | WriteNotepad
  | ReadNotepad
  | TempleteNum
  | ReadIndexTable
  | GetImageEx
  | Cancel
  | AutoEnroll
  | AutoIdentify
  | AuraLedConfig
  | CheckSensor
  | GetAlgVer
  | GetFwVer
  | ReadProdInfo
  | SoftRst
  | HandShake
deriving DecidableEq

/-- Discriminant of an `Instruction` (its `repr(u8)` value). -/
def Instruction.toU8 : Instruction → Nat
  | .GenImg => 0x01
  | .GenChar => 0x02
  | .Match => 0x03
  | .Search => 0x04
  | .RegModel => 0x05
  | .Store => 0x06
  | .LoadChar => 0x07
  | .UpChar => 0x08
  | .DownChar => 0x09
  | .UpImage => 0x0A
  | .DownImage => 0x0B
  | .DeleteChar => 0x0C
  | .Empty => 0x0D
  | .SetSysPara => 0x0E
  | .ReadSysPara => 0x0F
  | .SetPwd => 0x12
  | .VfyPwd => 0x13
  | .GetRandomCode => 0x14
  | .SetAdder => 0x15
  | .ReadInfPage => 0x16
  | .Control => 0x17
  | .WriteNotepad => 0x18
  | .ReadNotepad => 0x19
  | .TempleteNum => 0x1D
  | .ReadIndexTable => 0x1F
  | .GetImageEx => 0x28
  | .Cancel => 0x30
  | .AutoEnroll => 0x31
  | .AutoIdentify => 0x32
  | .AuraLedConfig => 0x35
  | .CheckSensor => 0x36
  | .GetAlgVer => 0x39
  | .GetFwVer => 0x3A
  | .ReadProdInfo => 0x3C
  | .SoftRst => 0x3D
  | .HandShake => 0x40

/-- lib.rs `enum ParameterSetting` (`repr(u8)`, size 1). -/
inductive ParameterSetting
  | BaudRateControl
  | SecurityLevel
  | DataPackageLength
deriving DecidableEq

/-- lib.rs `enum BufferID` (`repr(u8)`, size 1). -/
inductive BufferID
  | CharBuffer1
  | CharBuffer2
  | CharBuffer3
  | CharBuffer4
  | CharBuffer5
  | CharBuffer6
deriving DecidableEq

/-- lib.rs `enum IndexPage` (fieldless, rustc lays it out in 1 byte). -/
inductive IndexPage
  | Page0
  | Page1
  | Page2
  | Page3
deriving DecidableEq

/-- lib.rs `enum SafeGrade` (fieldless, 1 byte). -/
inductive SafeGrade
  | Low
  | LowMid
  | Mid
  | HighMid
  | High
deriving DecidableEq

/-- lib.rs `enum LightPattern` (`repr(u8)`, size 1). -/
inductive LightPattern
  | Breathing
  | Flashing
  | AlwaysOn
  | AlwaysOff
  | GraduallyOn
  | GraduallyOff
deriving DecidableEq

/-- lib.rs `enum Color` (`repr(u8)`, size 1). -/
inductive Color
  | Red
  | Blue
  | Purple
  | Green
  | Yellow
  | Cyan
  | White
deriving DecidableEq

/-- lib.rs `enum Payload`.  Argument types follow the source; `u8`/`u16`/
`u32` arguments are `Nat`, `Page = [u8; 512]` is a byte list (its content
never affects any length computation). -/
inductive Payload
  | None
  | VfyPwd (password : Nat)
  | SetPwd (password : Nat)
  | SetAdder (address : Nat)
  | SetSysPara (p : ParameterSetting) (content : Nat)
  | ReadSysPara
  | TempleteNum
  | ReadIndexTable (page : IndexPage)
  | GenImg
  | Img2Tz (b : BufferID)
  | UpImage
  | DownImage
  | GenChar (b : BufferID)
  | RegModel
  | UpChar (b : BufferID)
  | DownChar (b : BufferID)
  | Store (b : BufferID) (page : IndexPage)
  | LoadChar (b : BufferID) (page : IndexPage)
  | DeleteChar (b : BufferID) (num : Nat)
  | Empty
  | Match
  | Search (b : BufferID) (start : Nat) (num : Nat)
  | GetImageEx
  | Cancel
  | HandShake
  | CheckSensor
  | GetAlgVer
  | GetFwVer
  | ReadProdInfo
  | SoftRst
  | AuraLedConfig (ctrl : LightPattern) (speed : Nat) (color : Color) (times : Nat)
  | AutoEnroll (page : IndexPage) (c1 c2 c3 c4 : Bool)
  | AutoIdentify (grade : SafeGrade) (start num times : Nat) (ret : Bool)
  | GetRandomCode
  | ReadInfPage
  | WriteNotepad (page : Nat) (content : List Nat)
  | ReadNotepad (page : Nat)

/-- lib.rs `Payload::len`, which returns `size_of` of the variant's field
tuple.  The numeric values are the rustc layouts of those tuples:
all cited enums are 1 byte, `Password`/`Address` are `u32` (4),
`(ParameterSetting, u8)` is 2, `(BufferID, IndexPage)` is 2,
`(BufferID, u8)` is 2, `(BufferID, u16, u16)` is 6 (two `u16` fields, one
byte field, alignment 2), `(LightPattern, Speed, Color, Times)` is 4,
`(IndexPage, bool, bool, bool, bool)` is 5, `(SafeGrade, u8, u8, u8, bool)`
is 5, `(NotePageNum, Page) = (u8, [u8; 512])` is 513, `NotePageNum` is 1,
and `()` is 0. -/
def Payload.len : Payload → Nat
  | .None => 0
  | .VfyPwd _ => 4
  | .SetPwd _ => 4
  | .SetAdder _ => 4
  | .SetSysPara _ _ => 2
  | .ReadSysPara => 0
  | .TempleteNum => 0
  | .ReadIndexTable _ => 1
  | .GenImg => 0
  | .Img2Tz _ => 1
  | .UpImage => 0
  | .DownImage => 0
  | .GenChar _ => 1
  | .RegModel => 0
  | .UpChar _ => 1
  | .DownChar _ => 1
  | .Store _ _ => 2
  | .LoadChar _ _ => 2
  | .DeleteChar _ _ => 2
  | .Empty => 0
  | .Match => 0
  | .Search _ _ _ => 6
  | .GetImageEx => 0
  | .Cancel => 0
  | .HandShake => 0
  | .CheckSensor => 0
  | .GetAlgVer => 0
  | .GetFwVer => 0
  | .ReadProdInfo => 0
  | .SoftRst => 0
  | .AuraLedConfig _ _ _ _ => 4
  | .AutoEnroll _ _ _ _ _ => 5
  | .AutoIdentify _ _ _ _ _ => 5
  | .GetRandomCode => 0
  | .ReadInfPage => 0
  | .WriteNotepad _ _ => 513
  | .ReadNotepad _ => 1

/-- lib.rs `struct Data`: instruction plus payload, the package contents. -/
structure Data where
  instruction : Instruction
  payload : Payload

/-- lib.rs `Data::len`: `size_of::<Instruction>()` (1 byte) plus the payload
length. -/
def Data.len (d : Data) : Nat :=
  1 + d.payload.len

/-- lib.rs `const HEADER: Header = 0xEF01`. -/
def HEADER : Nat := 0xEF01

/-- lib.rs `const ADDRESS: Address = 0xFFFFFFFF`. -/
def ADDRESS : Nat := 0xFFFFFFFF

/-- lib.rs `struct Package` (header, address, identifier, length field,
contents, checksum field). -/
structure Package where
  header : Nat
  address : Nat
  identifier : Identifier
  length : Nat
  contents : Data
  checksum : Nat

/-- lib.rs `get_u16_as_u16_parts`: `[value >> 8, value & 0xFF]`. -/
def get_u16_as_u16_parts (value : Nat) : List Nat :=
  [value >>> 8, value &&& 0xFF]

/-- Length value accumulated by lib.rs `Package::length` before its
assertion: `size_of::<Header>() + size_of::<Address>() +
size_of::<Identifier>() + size_of::<Length>() + contents.len() +
size_of::<Sum>()` = 2 + 4 + 1 + 2 + contents.len() + 2.  The sum is u16
arithmetic in the source; its maximum possible value (524) cannot wrap. -/
def Package.lengthComputed (p : Package) : Nat :=
  2 + 4 + 1 + 2 + p.contents.len + 2

/-- lib.rs `Package::length`: computes `lengthComputed`, asserts
`length <= 256` (modelled as `none` on assertion failure, i.e. panic) and
stores the value into the length field. -/
def Package.runLength (p : Package) : Option Package :=
  if p.lengthComputed ≤ 256 then
    some { p with length := p.lengthComputed }
  else
    none

/-- lib.rs `Package::checksum`: sums the identifier byte and the two length
bytes (`get_u16_as_u16_parts(self.length)`), stores and returns the result.
The body bytes are *not* added (the source line reads `// TODO: Contents`).
u16 additions are modelled with `% 2^16`. -/
def Package.runChecksum (p : Package) : Package :=
  let c := (p.identifier.toU8 + (get_u16_as_u16_parts p.length)[0]! +
           (get_u16_as_u16_parts p.length)[1]!) % 65536
  { p with checksum := c }

/-- lib.rs `Package::build`: starts from `Default::default()` (header
`0xEF01`, address `0xFFFFFFFF`, length 12, checksum 0) with the given
identifier and contents, then runs `length()` (which may panic, hence
`Option`) and `checksum()`. -/
def Package.build (id : Identifier) (instr : Instruction) (payload : Payload) :
    Option Package :=
  let p : Package :=
    { header := HEADER
      address := ADDRESS
      identifier := id
      length := 12
      contents := { instruction := instr, payload := payload }
      checksum := 0 }
  match p.runLength with
  | none => none
  | some q => some q.runChecksum

/-- Confirmation codes of lib.rs (`enum ConfirmationCode`, `repr(u8)`), with
`SystemReserved = 0xFF` as the declared default. -/
inductive ConfirmationCode
  | Success
  | ErrorReceivingPacket
  | NoFingerOnSensor
  | FailToEnrollFinger
  | FailToGenerateCharacterOverDisorderlyFingerprintImage
  | FailToGenerateCharacterLacknessOfCharacterPointOrOverSmallness
  | FailFingerDoesntMatch
  | FailToFindMatchingFinger
  | FailToCombineCharacterFiles
  | AddressingPageIDIsBeyoundTheFingerLibary
  | ErrorWhenReadingTemplateFromLibararORTemplateIsInvalid
  | ErrorWhenUploadingTemplate
  | ModuleCantReceivingTheFollowingDataPackages
  | ErrorWhenUploadingImage
  | FailToDeleteTheTemplate
  | FailToClearFingerLibary
  | WrongPassword
  | FailToGenerateImageLacknessOfValidPrimaryImage
  | ErrorWhenWritingFlash
  | NoDefinitionError
  | InvalidRegisterNumber
  | IncorrectConfigurationOfRegister
  | WrongNotepadPageNumber
  | FailToOperateTheCommunicationPort
  | FingerPrintLibaryFull
  | AddressIncorrect
  | MustVerifyPassword
  | FingerTemplateEmpty
  | FingerLibaryEmpty
  | Timeout
  | FingerAlreadyExists
  | SensorHardwareError
  | UnsupportedCommand
  | HardwareError
  | CommandExecutionFailure
  | SystemReserved
deriving DecidableEq, Fintype

/-- Discriminant of a legacy `ConfirmationCode` (its `repr(u8)` value). -/
def ConfirmationCode.toU8 : ConfirmationCode → Nat
  | .Success => 0x00
  | .ErrorReceivingPacket => 0x01
  | .NoFingerOnSensor => 0x02
  | .FailToEnrollFinger => 0x03
  | .FailToGenerateCharacterOverDisorderlyFingerprintImage => 0x06
  | .FailToGenerateCharacterLacknessOfCharacterPointOrOverSmallness => 0x07
  | .FailFingerDoesntMatch => 0x08
  | .FailToFindMatchingFinger => 0x09
  | .FailToCombineCharacterFiles => 0x0A
  | .AddressingPageIDIsBeyoundTheFingerLibary => 0x0B
  | .ErrorWhenReadingTemplateFromLibararORTemplateIsInvalid => 0x0C
  | .ErrorWhenUploadingTemplate => 0x0D
  | .ModuleCantReceivingTheFollowingDataPackages => 0x0E
  | .ErrorWhenUploadingImage => 0x0F
  | .FailToDeleteTheTemplate => 0x10
  | .FailToClearFingerLibary => 0x11
  | .WrongPassword => 0x13
  | .FailToGenerateImageLacknessOfValidPrimaryImage => 0x15
  | .ErrorWhenWritingFlash => 0x18
  | .NoDefinitionError => 0x19
  | .InvalidRegisterNumber => 0x1A
  | .IncorrectConfigurationOfRegister => 0x1B
  | .WrongNotepadPageNumber => 0x1C
  | .FailToOperateTheCommunicationPort => 0x1D
  | .FingerPrintLibaryFull => 0x1F
  | .AddressIncorrect => 0x20
  | .MustVerifyPassword => 0x21
  | .FingerTemplateEmpty => 0x22
  | .FingerLibaryEmpty => 0x24
  | .Timeout => 0x26
  | .FingerAlreadyExists => 0x27
  | .SensorHardwareError => 0x29
  | .UnsupportedCommand => 0xFC
  | .HardwareError => 0xFD
  | .CommandExecutionFailure => 0xFE
  | .SystemReserved => 0xFF

/-- lib.rs `ConfirmationCode::from(value: u8)`: a match on the defined
discriminants with a catch-all arm `_ => Self::SystemReserved`. -/
def ConfirmationCode.fromByte (value : Nat) : ConfirmationCode :=
  if value = 0x00 then .Success
  else if value = 0x01 then .ErrorReceivingPacket
  else if value = 0x02 then .NoFingerOnSensor
  else if value = 0x03 then .FailToEnrollFinger
  else if value = 0x06 then .FailToGenerateCharacterOverDisorderlyFingerprintImage
  else if value = 0x07 then .FailToGenerateCharacterLacknessOfCharacterPointOrOverSmallness
  else if value = 0x08 then .FailFingerDoesntMatch
  else if value = 0x09 then .FailToFindMatchingFinger
  else if value = 0x0A then .FailToCombineCharacterFiles
  else if value = 0x0B then .AddressingPageIDIsBeyoundTheFingerLibary
  else if value = 0x0C then .ErrorWhenReadingTemplateFromLibararORTemplateIsInvalid
  else if value = 0x0D then .ErrorWhenUploadingTemplate
  else if value = 0x0E then .ModuleCantReceivingTheFollowingDataPackages
  else if value = 0x0F then .ErrorWhenUploadingImage
  else if value = 0x10 then .FailToDeleteTheTemplate
  else if value = 0x11 then .FailToClearFingerLibary
  else if value = 0x13 then .WrongPassword
  else if value = 0x15 then .FailToGenerateImageLacknessOfValidPrimaryImage
  else if value = 0x18 then .ErrorWhenWritingFlash
  else if value = 0x19 then .NoDefinitionError
  else if value = 0x1A then .InvalidRegisterNumber
  else if value = 0x1B then .IncorrectConfigurationOfRegister
  else if value = 0x1C then .WrongNotepadPageNumber
  else if value = 0x1D then .FailToOperateTheCommunicationPort
  else if value = 0x1F then .FingerPrintLibaryFull
  else if value = 0x20 then .AddressIncorrect
  else if value = 0x21 then .MustVerifyPassword
  else if value = 0x22 then .FingerTemplateEmpty
  else if value = 0x24 then .FingerLibaryEmpty
  else if value = 0x26 then .Timeout
  else if value = 0x27 then .FingerAlreadyExists
  else if value = 0x29 then .SensorHardwareError
  else if value = 0xFC then .UnsupportedCommand
  else if value = 0xFD then .HardwareError
  else if value = 0xFE then .CommandExecutionFailure
  else .SystemReserved

/-- lib.rs `Driver::write_notepad`: builds a command package carrying
`Payload::WriteNotepad(note_page_number, content)`. -/
def write_notepad (note_page_number : Nat) (content : List Nat) :
    Option Package :=
  Package.build .Command .WriteNotepad (.WriteNotepad note_page_number content)

/-- lib.rs `Driver::templete_num`: builds the TempleteNum command package. -/
def templete_num : Option Package :=
  Package.build .Command .TempleteNum .TempleteNum

end Legacy

namespace Engine

/-- constants.rs `be_enum` PackageIdentifier. -/
inductive PackageIdentifier
  | CommandPacket
  | DataPacket
  | AcknowledgePacket
  | EndOfDataPacket
deriving DecidableEq, Fintype

/-- Wire integer of a `PackageIdentifier` (`impl From<PackageIdentifier> for u8`). -/
def PackageIdentifier.toU8 : PackageIdentifier → Nat
  | .CommandPacket => 0x01
  | .DataPacket => 0x02
  | .AcknowledgePacket => 0x07
  | .EndOfDataPacket => 0x08

/-- constants.rs `TryFrom<u8> for PackageIdentifier`: match on the defined
values, `other => Err(other)`. -/
def PackageIdentifier.ofU8 (value : Nat) : Except Nat PackageIdentifier :=
  if value = 0x01 then .ok .CommandPacket
  else if value = 0x02 then .ok .DataPacket
  else if value = 0x07 then .ok .AcknowledgePacket
  else if value = 0x08 then .ok .EndOfDataPacket
  else .error value

/-- constants.rs `be_enum` Commands. -/
inductive Commands
  | GetImage
  | GenChar
  | RegModel
  | UpChar
  | UpImage
  | GetRandomCode
  | ReadSystemParameter
  | AutomaticRegistrationTemplate
  | AuraControl
deriving DecidableEq, Fintype

/-- Wire integer of a `Commands` value. -/
def Commands.toU8 : Commands → Nat
  | .GetImage => 0x01
  | .GenChar => 0x02
  | .RegModel => 0x05
  | .UpChar => 0x08
  | .UpImage => 0x0A
  | .GetRandomCode => 0x14
  | .ReadSystemParameter => 0x0F
  | .AutomaticRegistrationTemplate => 0x31
  | .AuraControl => 0x35

/-- constants.rs `TryFrom<u8> for Commands`. -/
def Commands.ofU8 (value : Nat) : Except Nat Commands :=
  if value = 0x01 then .ok .GetImage
  else if value = 0x02 then .ok .GenChar
  else if value = 0x05 then .ok .RegModel
  else if value = 0x08 then .ok .UpChar
  else if value = 0x0A then .ok .UpImage
  else if value = 0x14 then .ok .GetRandomCode
  else if value = 0x0F then .ok .ReadSystemParameter
  else if value = 0x31 then .ok .AutomaticRegistrationTemplate
  else if value = 0x35 then .ok .AuraControl
  else .error value

/-- constants.rs `be_enum` ConfirmationCode (the engine's version; here
`SystemReserved -> 0xFF` is an ordinary enumerant of the total mapping). -/
inductive ConfirmationCode
  | SuccessCode
  | ErrorCode
  | NoFingerOnSensor
  | FailToEnrollFinger
  | FailToGenerateCharacterOverDisorderlyFingerprintImage
  | FailToGenerateCharacterLacknessOfCharacterPointOrOverSmallness
  | FailFingerDoesntMatch
  | FailToFindMatchingFinger
  | FailToCombineCharacterFiles
  | AddressingPageIDIsBeyoundTheFingerLibary
  | ErrorWhenReadingTemplateFromLibararORTemplateIsInvalid
  | ErrorWhenUploadingTemplate
  | ModuleCantReceivingTheFollowingDataPackages
  | ErrorWhenUploadingImage
  | FailToDeleteTheTemplate
  | FailToClearFingerLibary
  | WrongPassword
  | FailToGenerateImageLacknessOfValidPrimaryImage
  | ErrorWhenWritingFlash
  | NoDefinitionError
  | InvalidRegisterNumber
  | IncorrectConfigurationOfRegister
  | WrongNotepadPageNumber
  | FailToOperateTheCommunicationPort
  | FingerPrintLibaryFull
  | AddressIncorrect
  | MustVerifyPassword
  | FingerTemplateEmpty
  | FingerLibaryEmpty
  | Timeout
  | FingerAlreadyExists
  | SensorHardwareError
  | UnsupportedCommand
  | HardwareError
  | CommandExecutionFailure
  | SystemReserved
deriving DecidableEq, Fintype

/-- Wire integer of an engine `ConfirmationCode`. -/
def ConfirmationCode.toU8 : ConfirmationCode → Nat
  | .SuccessCode => 0x00
  | .ErrorCode => 0x01
  | .NoFingerOnSensor => 0x02
  | .FailToEnrollFinger => 0x03
  | .FailToGenerateCharacterOverDisorderlyFingerprintImage => 0x06
  | .FailToGenerateCharacterLacknessOfCharacterPointOrOverSmallness => 0x07
  | .FailFingerDoesntMatch => 0x08
  | .FailToFindMatchingFinger => 0x09
  | .FailToCombineCharacterFiles => 0x0A
  | .AddressingPageIDIsBeyoundTheFingerLibary => 0x0B
  | .ErrorWhenReadingTemplateFromLibararORTemplateIsInvalid => 0x0C
  | .ErrorWhenUploadingTemplate => 0x0D
  | .ModuleCantReceivingTheFollowingDataPackages => 0x0E
  | .ErrorWhenUploadingImage => 0x0F
  | .FailToDeleteTheTemplate => 0x10
  | .FailToClearFingerLibary => 0x11
  | .WrongPassword => 0x13
  | .FailToGenerateImageLacknessOfValidPrimaryImage => 0x15
  | .ErrorWhenWritingFlash => 0x18
  | .NoDefinitionError => 0x19
  | .InvalidRegisterNumber => 0x1A
  | .IncorrectConfigurationOfRegister => 0x1B
  | .WrongNotepadPageNumber => 0x1C
  | .FailToOperateTheCommunicationPort => 0x1D
  | .FingerPrintLibaryFull => 0x1F
  | .AddressIncorrect => 0x20
  | .MustVerifyPassword => 0x21
  | .FingerTemplateEmpty => 0x22
  | .FingerLibaryEmpty => 0x24
  | .Timeout => 0x26
  | .FingerAlreadyExists => 0x27
  | .SensorHardwareError => 0x29
  | .UnsupportedCommand => 0xFC
  | .HardwareError => 0xFD
  | .CommandExecutionFailure => 0xFE
  | .SystemReserved => 0xFF

/-- constants.rs `TryFrom<u8> for ConfirmationCode`: unknown values are
`Err(other)`, not coerced to `SystemReserved`. -/
def ConfirmationCode.ofU8 (value : Nat) : Except Nat ConfirmationCode :=
  if value = 0x00 then .ok .SuccessCode
  else if value = 0x01 then .ok .ErrorCode
  else if value = 0x02 then .ok .NoFingerOnSensor
  else if value = 0x03 then .ok .FailToEnrollFinger
  else if value = 0x06 then .ok .FailToGenerateCharacterOverDisorderlyFingerprintImage
  else if value = 0x07 then .ok .FailToGenerateCharacterLacknessOfCharacterPointOrOverSmallness
  else if value = 0x08 then .ok .FailFingerDoesntMatch
  else if value = 0x09 then .ok .FailToFindMatchingFinger
  else if value = 0x0A then .ok .FailToCombineCharacterFiles
  else if value = 0x0B then .ok .AddressingPageIDIsBeyoundTheFingerLibary
  else if value = 0x0C then .ok .ErrorWhenReadingTemplateFromLibararORTemplateIsInvalid
  else if value = 0x0D then .ok .ErrorWhenUploadingTemplate
  else if value = 0x0E then .ok .ModuleCantReceivingTheFollowingDataPackages
  else if value = 0x0F then .ok .ErrorWhenUploadingImage
  else if value = 0x10 then .ok .FailToDeleteTheTemplate
  else if value = 0x11 then .ok .FailToClearFingerLibary
  else if value = 0x13 then .ok .WrongPassword
  else if value = 0x15 then .ok .FailToGenerateImageLacknessOfValidPrimaryImage
  else if value = 0x18 then .ok .ErrorWhenWritingFlash
  else if value = 0x19 then .ok .NoDefinitionError
  else if value = 0x1A then .ok .InvalidRegisterNumber
  else if value = 0x1B then .ok .IncorrectConfigurationOfRegister
  else if value = 0x1C then .ok .WrongNotepadPageNumber
  else if value = 0x1D then .ok .FailToOperateTheCommunicationPort
  else if value = 0x1F then .ok .FingerPrintLibaryFull
  else if value = 0x20 then .ok .AddressIncorrect
  else if value = 0x21 then .ok .MustVerifyPassword
  else if value = 0x22 then .ok .FingerTemplateEmpty
  else if value = 0x24 then .ok .FingerLibaryEmpty
  else if value = 0x26 then .ok .Timeout
  else if value = 0x27 then .ok .FingerAlreadyExists
  else if value = 0x29 then .ok .SensorHardwareError
  else if value = 0xFC then .ok .UnsupportedCommand
  else if value = 0xFD then .ok .HardwareError
  else if value = 0xFE then .ok .CommandExecutionFailure
  else if value = 0xFF then .ok .SystemReserved
  else .error value

/-- constants.rs `be_enum` CharBufferId. -/
inductive CharBufferId
  | One
  | Two
  | Three
  | Four
  | Five
  | Six
deriving DecidableEq, Fintype

/-- Wire integer of a `CharBufferId`. -/
def CharBufferId.toU8 : CharBufferId → Nat
  | .One => 0x01
  | .Two => 0x02
  | .Three => 0x03
  | .Four => 0x04
  | .Five => 0x05
  | .Six => 0x06

/-- constants.rs `TryFrom<u8> for CharBufferId`. -/
def CharBufferId.ofU8 (value : Nat) : Except Nat CharBufferId :=
  if value = 0x01 then .ok .One
  else if value = 0x02 then .ok .Two
  else if value = 0x03 then .ok .Three
  else if value = 0x04 then .ok .Four
  else if value = 0x05 then .ok .Five
  else if value = 0x06 then .ok .Six
  else .error value

/-- constants.rs `be_enum` AutoEnrollStep. -/
inductive AutoEnrollStep
  | CollectImage1
  | GenerateFeature1
  | CollectImage2
  | GenerateFeature2
  | CollectImage3
  | GenerateFeature3
  | CollectImage4
  | GenerateFeature4
  | CollectImage5
  | GenerateFeature5
  | CollectImage6
  | GenerateFeature6
  | Repeatfingerprint
  | MergeFeature
  | StorageTemplate
deriving DecidableEq, Fintype

/-- Wire integer of an `AutoEnrollStep`. -/
def AutoEnrollStep.toU8 : AutoEnrollStep → Nat
  | .CollectImage1 => 0x01
  | .GenerateFeature1 => 0x02
  | .CollectImage2 => 0x03
  | .GenerateFeature2 => 0x04
  | .CollectImage3 => 0x05
  | .GenerateFeature3 => 0x06
  | .CollectImage4 => 0x07
  | .GenerateFeature4 => 0x08
  | .CollectImage5 => 0x09
  | .GenerateFeature5 => 0x0A
  | .CollectImage6 => 0x0B
  | .GenerateFeature6 => 0x0C
  | .Repeatfingerprint => 0x0D
  | .MergeFeature => 0x0E
  | .StorageTemplate => 0x0F

/-- constants.rs `TryFrom<u8> for AutoEnrollStep`. -/
def AutoEnrollStep.ofU8 (value : Nat) : Except Nat AutoEnrollStep :=
  if value = 0x01 then .ok .CollectImage1
  else if value = 0x02 then .ok .GenerateFeature1
  else if value = 0x03 then .ok .CollectImage2
  else if value = 0x04 then .ok .GenerateFeature2
  else if value = 0x05 then .ok .CollectImage3
  else if value = 0x06 then .ok .GenerateFeature3
  else if value = 0x07 then .ok .CollectImage4
  else if value = 0x08 then .ok .GenerateFeature4
  else if value = 0x09 then .ok .CollectImage5
  else if value = 0x0A then .ok .GenerateFeature5
  else if value = 0x0B then .ok .CollectImage6
  else if value = 0x0C then .ok .GenerateFeature6
  else if value = 0x0D then .ok .Repeatfingerprint
  else if value = 0x0E then .ok .MergeFeature
  else if value = 0x0F then .ok .StorageTemplate
  else .error value

/-- constants.rs `be_enum` AuraControlCode. -/
inductive AuraControlCode
  | Breathing
  | Flashing
  | AlwaysOn
  | AlwaysOff
  | GraduallyOn
  | GraduallyOff
deriving DecidableEq, Fintype

/-- Wire integer of an `AuraControlCode`. -/
def AuraControlCode.toU8 : AuraControlCode → Nat
  | .Breathing => 0x01
  | .Flashing => 0x02
  | .AlwaysOn => 0x03
  | .AlwaysOff => 0x04
  | .GraduallyOn => 0x05
  | .GraduallyOff => 0x06

/-- constants.rs `TryFrom<u8> for AuraControlCode`. -/
def AuraControlCode.ofU8 (value : Nat) : Except Nat AuraControlCode :=
  if value = 0x01 then .ok .Breathing
  else if value = 0x02 then .ok .Flashing
  else if value = 0x03 then .ok .AlwaysOn
  else if value = 0x04 then .ok .AlwaysOff
  else if value = 0x05 then .ok .GraduallyOn
  else if value = 0x06 then .ok .GraduallyOff
  else .error value

/-- constants.rs `be_enum` AuraColorIndex. -/
inductive AuraColorIndex
  | Red
  | Blue
  | Purple
  | Green
  | Yellow
  | Cyan
  | White
deriving DecidableEq, Fintype

/-- Wire integer of an `AuraColorIndex`. -/
def AuraColorIndex.toU8 : AuraColorIndex → Nat
  | .Red => 0x01
  | .Blue => 0x02
  | .Purple => 0x03
  | .Green => 0x04
  | .Yellow => 0x05
  | .Cyan => 0x06
  | .White => 0x07

/-- constants.rs `TryFrom<u8> for AuraColorIndex`. -/
def AuraColorIndex.ofU8 (value : Nat) : Except Nat AuraColorIndex :=
  if value = 0x01 then .ok .Red
  else if value = 0x02 then .ok .Blue
  else if value = 0x03 then .ok .Purple
  else if value = 0x04 then .ok .Green
  else if value = 0x05 then .ok .Yellow
  else if value = 0x06 then .ok .Cyan
  else if value = 0x07 then .ok .White
  else .error value

/-- Modelled from the spec: the crate-root `Checksum` accumulator is not
under `src/` (only its callers are).  Spec section 4.1: a single 16-bit
state initialized to zero; `update(bytes)` adds each byte with wrapping
semantics, in wire order. -/
structure Checksum where
  state : Nat
deriving DecidableEq

/-- Checksum state zero (fresh accumulator per frame). -/
def Checksum.init : Checksum := ⟨0⟩

/-- Fold bytes into a `Checksum` in wire order with 16-bit wrapping. -/
def Checksum.update (c : Checksum) (bytes : List Nat) : Checksum :=
  ⟨bytes.foldl (fun s b => (s + b) % 65536) c.state⟩

/-- Modelled from the spec: the crate-root `Error` union is not under
`src/` (auto.rs only constructs its variants).  Spec section 7:
`Wire(e)` transport errors cannot arise in this pure byte-list embedding
and are omitted; the remaining variants are kept. -/
inductive Error
  | EndOfFile
  | IncorrectData
  | BadChecksum
  | BadConfirmation (code : ConfirmationCode)
deriving DecidableEq

/-- Rust `bool as u8`. -/
def boolU8 (b : Bool) : Nat := if b then 1 else 0

/-- Big-endian value of a byte list (`from_be_bytes`). -/
def beVal (bytes : List Nat) : Nat :=
  bytes.foldl (fun a b => a * 256 + b) 0

/-- wire_traits.rs `ToWire for u8`: emit `to_be_bytes` (the single byte) and
fold exactly those bytes into the checksum. -/
def u8ToWireRun (n : Nat) (c : Checksum) : List Nat × Checksum :=
  let bytes := [n % 256]
  (bytes, c.update bytes)

/-- wire_traits.rs `ToWire for u16`: two big-endian bytes. -/
def u16ToWireRun (n : Nat) (c : Checksum) : List Nat × Checksum :=
  let bytes := [n / 256 % 256, n % 256]
  (bytes, c.update bytes)

/-- wire_traits.rs `ToWire for u32`: four big-endian bytes. -/
def u32ToWireRun (n : Nat) (c : Checksum) : List Nat × Checksum :=
  let bytes := [n / 16777216 % 256, n / 65536 % 256, n / 256 % 256, n % 256]
  (bytes, c.update bytes)

/-- wire_traits.rs `ToWire for ()`: writes nothing and leaves the checksum
untouched. -/
def unitToWireRun (c : Checksum) : List Nat × Checksum :=
  ([], c)

/-- wire_traits.rs `ToWire for [u8]` (and `[u8; N]`, which delegates to the
slice implementation): one `cksm.update(self)` then `write_all(self)`. -/
def bytesToWireRun (l : List Nat) (c : Checksum) : List Nat × Checksum :=
  (l, c.update l)

/-- constants.rs `be_enum`-generated `ToWire`: convert to the wire integer
and delegate to the integer's `to_wire`. -/
def PackageIdentifier.toWireRun (v : PackageIdentifier) (c : Checksum) :
    List Nat × Checksum :=
  u8ToWireRun v.toU8 c

/-- be_enum `ToWire` for `Commands`. -/
def Commands.toWireRun (v : Commands) (c : Checksum) : List Nat × Checksum :=
  u8ToWireRun v.toU8 c

/-- be_enum `ToWire` for the engine `ConfirmationCode`. -/
def ConfirmationCode.toWireRun (v : ConfirmationCode) (c : Checksum) :
    List Nat × Checksum :=
  u8ToWireRun v.toU8 c

/-- be_enum `ToWire` for `CharBufferId`. -/
def CharBufferId.toWireRun (v : CharBufferId) (c : Checksum) :
    List Nat × Checksum :=
  u8ToWireRun v.toU8 c

/-- be_enum `ToWire` for `AutoEnrollStep`. -/
def AutoEnrollStep.toWireRun (v : AutoEnrollStep) (c : Checksum) :
    List Nat × Checksum :=
  u8ToWireRun v.toU8 c

/-- be_enum `ToWire` for `AuraControlCode`. -/
def AuraControlCode.toWireRun (v : AuraControlCode) (c : Checksum) :
    List Nat × Checksum :=
  u8ToWireRun v.toU8 c

/-- be_enum `ToWire` for `AuraColorIndex`. -/
def AuraColorIndex.toWireRun (v : AuraColorIndex) (c : Checksum) :
    List Nat × Checksum :=
  u8ToWireRun v.toU8 c

/-- constants.rs `enum AuraCycleCount` (`Infinite` or `Times(u8)`). -/
inductive AuraCycleCount
  | Infinite
  | Times (n : Nat)
deriving DecidableEq

/-- constants.rs `ToWire for AuraCycleCount`: the value byte is 0 for
`Infinite`, the count otherwise; `size_on_wire` is 1. -/
def AuraCycleCount.toWireRun (v : AuraCycleCount) (c : Checksum) :
    List Nat × Checksum :=
  let value := match v with
    | .Infinite => 0
    | .Times n => n % 256
  ([value], c.update [value])

/-- constants.rs `struct AuraControlPayload`. -/
structure AuraControlPayload where
  ctrl_code : AuraControlCode
  speed : Nat
  color : AuraColorIndex
  count : AuraCycleCount

/-- constants.rs `ToWire for AuraControlPayload`: serialize ctrl_code,
speed, color and count in that order, threading the checksum through the
four sub-calls; `size_on_wire` is 4. -/
def AuraControlPayload.toWireRun (p : AuraControlPayload) (c : Checksum) :
    List Nat × Checksum :=
  let (b1, c1) := p.ctrl_code.toWireRun c
  let (b2, c2) := u8ToWireRun p.speed c1
  let (b3, c3) := p.color.toWireRun c2
  let (b4, c4) := p.count.toWireRun c3
  (b1 ++ b2 ++ b3 ++ b4, c4)

/-- auto.rs `struct AutoEnrollLocation { val: u8 }`. -/
structure AutoEnrollLocation where
  val : Nat
deriving DecidableEq

/-- auto.rs `AutoEnrollLocation::specific`: `Some` when the Rust range
`0x00..0xC8` (half-open) contains `loc`, else `None`. -/
def AutoEnrollLocation.specific (loc : Nat) : Option AutoEnrollLocation :=
  if loc < 0xC8 then some ⟨loc⟩ else none

/-- auto.rs `AutoEnrollLocation::automatic`: the sentinel value 0xC8. -/
def AutoEnrollLocation.automatic : AutoEnrollLocation := ⟨0xC8⟩

/-- auto.rs `struct AutoEnrollConfig`. -/
structure AutoEnrollConfig where
  location : AutoEnrollLocation
  cover_id : Bool
  allow_dupes : Bool
  return_status : Bool
  require_release : Bool

/-- auto.rs `ToWire for AutoEnrollConfig`: build the five-byte array
`[location.val, cover_id, allow_dupes, return_status, require_release]`,
feed it to the checksum once, write it; `size_on_wire` is 5. -/
def AutoEnrollConfig.toWireRun (cfg : AutoEnrollConfig) (c : Checksum) :
    List Nat × Checksum :=
  let data := [cfg.location.val, boolU8 cfg.cover_id, boolU8 cfg.allow_dupes,
               boolU8 cfg.return_status, boolU8 cfg.require_release]
  (data, c.update data)

/-- Modelled from the spec: `IdentifySafety` is imported by auto.rs from
constants.rs but absent from the constants.rs under `src/`.  Spec
section 3: the auto-identify grade ranges over 1..=5. -/
inductive IdentifySafety
  | One
  | Two
  | Three
  | Four
  | Five
deriving DecidableEq

/-- Wire integer of an `IdentifySafety` grade (1..=5). -/
def IdentifySafety.toU8 : IdentifySafety → Nat
  | .One => 1
  | .Two => 2
  | .Three => 3
  | .Four => 4
  | .Five => 5

/-- Modelled from the spec: `AutoIdentCount` is imported by auto.rs from
constants.rs but absent from the constants.rs under `src/`.  Spec
section 3: `err_count: Infinite | TimesWithTimeout(u8)`, `Infinite`
encoded as `0x00`. -/
inductive AutoIdentCount
  | Infinite
  | TimesWithTimeout (n : Nat)
deriving DecidableEq

/-- Wire integer of an `AutoIdentCount` (`Infinite` is 0x00). -/
def AutoIdentCount.toU8 : AutoIdentCount → Nat
  | .Infinite => 0
  | .TimesWithTimeout n => n % 256

/-- auto.rs `struct AutoIdentifyConfig`. -/
structure AutoIdentifyConfig where
  grade : IdentifySafety
  start_pos : Nat
  steps_or_end : Nat
  return_status : Bool
  err_count : AutoIdentCount

/-- auto.rs `ToWire for AutoIdentifyConfig`: the five-byte array
`[grade, start_pos, steps_or_end, return_status, err_count]`, one checksum
update, one write; `size_on_wire` is 5. -/
def AutoIdentifyConfig.toWireRun (cfg : AutoIdentifyConfig) (c : Checksum) :
    List Nat × Checksum :=
  let data := [cfg.grade.toU8, cfg.start_pos, cfg.steps_or_end,
               boolU8 cfg.return_status, cfg.err_count.toU8]
  (data, c.update data)

/-- Take `n` bytes off the head of the input stream, as `read_exact` does:
`EndOfFile` when the stream is too short.  Bytes are reduced mod 256 as a
wire byte is a `u8`. -/
def takeBytes (n : Nat) (input : List Nat) :
    Except Error (List Nat × List Nat) :=
  if input.length < n then .error .EndOfFile
  else .ok ((input.take n).map (· % 256), input.drop n)

/-- wire_traits.rs `FromWire` for integers and `be_enum` enumerations,
specialized to one byte under an optional-free checksum: read one byte,
fold it into the checksum, then apply the enumeration's `TryFrom`; a
`TryFrom` failure becomes `Error::IncorrectData`.  The generic `ofU8`
argument is the enumeration's `TryFrom<u8>` function. -/
def enumFromWire (ofU8 : Nat → Except Nat α) (input : List Nat)
    (c : Checksum) : Except Error (α × List Nat × Checksum) := do
  let (buf, rest) ← takeBytes 1 input
  let c := c.update buf
  match ofU8 (beVal buf) with
  | .ok v => .ok (v, rest, c)
  | .error _ => .error .IncorrectData

/-- auto.rs `struct AutoEnrollResponse`. -/
structure AutoEnrollResponse where
  step : AutoEnrollStep
  model_id : Nat
deriving DecidableEq

/-- auto.rs `FromWire for AutoEnrollResponse`: read `[u8; 3]` (updating the
checksum with the three bytes at once), destructure as
`[step, _unused, id]`, convert the step with `TryFrom` (failure is
`IncorrectData`), keep `id` as the model id. -/
def AutoEnrollResponse.fromWire (input : List Nat) (c : Checksum) :
    Except Error (AutoEnrollResponse × List Nat × Checksum) := do
  let (bytes, rest) ← takeBytes 3 input
  let c := c.update bytes
  let step := bytes[0]!
  let id := bytes[2]!
  match AutoEnrollStep.ofU8 step with
  | .ok s => .ok ({ step := s, model_id := id }, rest, c)
  | .error _ => .error .IncorrectData

/-- Modelled from the spec: `AutoIdentifyStep` is imported by auto.rs from
constants.rs but absent from the constants.rs under `src/`.  Spec
section 4.9 names the three steps `CollectImage`, `GenerateFeature`,
`Search`; their byte codes are not given by the spec and are taken here as
1, 2, 3 in order (no claim depends on the concrete codes). -/
inductive AutoIdentifyStep
  | CollectImage
  | GenerateFeature
  | Search
deriving DecidableEq

/-- Wire integer of an `AutoIdentifyStep` (see the caveat on the type). -/
def AutoIdentifyStep.toU8 : AutoIdentifyStep → Nat
  | .CollectImage => 1
  | .GenerateFeature => 2
  | .Search => 3

/-- TryFrom for `AutoIdentifyStep`, the inverse of `toU8` with
`Err(other)` elsewhere. -/
def AutoIdentifyStep.ofU8 (value : Nat) : Except Nat AutoIdentifyStep :=
  if value = 1 then .ok .CollectImage
  else if value = 2 then .ok .GenerateFeature
  else if value = 3 then .ok .Search
  else .error value

/-- auto.rs `struct AutoIdentifyResponse`. -/
structure AutoIdentifyResponse where
  step : AutoIdentifyStep
  model_id : Nat
  score : Nat
deriving DecidableEq

/-- auto.rs `FromWire for AutoIdentifyResponse`: read `[u8; 5]`,
destructure as `[step, _unused, id, score_hi, score_lo]`, convert the step
with `TryFrom` (failure is `IncorrectData`), assemble the big-endian
score. -/
def AutoIdentifyResponse.fromWire (input : List Nat) (c : Checksum) :
    Except Error (AutoIdentifyResponse × List Nat × Checksum) := do
  let (bytes, rest) ← takeBytes 5 input
  let c := c.update bytes
  let step := bytes[0]!
  let id := bytes[2]!
  let score := beVal [bytes[3]!, bytes[4]!]
  match AutoIdentifyStep.ofU8 step with
  | .ok s => .ok ({ step := s, model_id := id, score := score }, rest, c)
  | .error _ => .error .IncorrectData

/-- Modelled from the spec: the crate-root `Response<T>` acknowledge
parser is not under `src/` (auto.rs only calls it).  Fields per spec
section 4.4: the frame's address, the raw identifier byte, the
confirmation code and the typed body.  The step-9 validation of
address/identifier/confirmation is performed by the callers (auto.rs
`wait_step`), not here. -/
structure Response (β : Type) where
  address : Nat
  ident : Nat
  confirmation : ConfirmationCode
  body : β
deriving DecidableEq

/-- Modelled from the spec, section 4.4 steps 1-8: read and check the
magic, read the address (uncovered), then under a fresh checksum read the
identifier byte, the 16-bit length (accepted without range check), the
confirmation code (unknown byte is `IncorrectData`) and the typed body;
finally read the trailing checksum (uncovered) and compare
(`BadChecksum` on disagreement). -/
def Response.fromWire
    (bodyFromWire : List Nat → Checksum →
      Except Error (β × List Nat × Checksum))
    (input : List Nat) : Except Error (Response β × List Nat) := do
  let (magicBytes, r1) ← takeBytes 2 input
  if beVal magicBytes ≠ 0xEF01 then .error .IncorrectData else
  let (addrBytes, r2) ← takeBytes 4 r1
  let address := beVal addrBytes
  let c0 := Checksum.init
  let (identBytes, r3) ← takeBytes 1 r2
  let ident := beVal identBytes
  let c1 := c0.update identBytes
  let (lenBytes, r4) ← takeBytes 2 r3
  let c2 := c1.update lenBytes
  let (conf, r5, c3) ← enumFromWire ConfirmationCode.ofU8 r4 c2
  let (body, r6, c4) ← bodyFromWire r5 c3
  let (ckBytes, r7) ← takeBytes 2 r6
  if beVal ckBytes ≠ c4.state then .error .BadChecksum else
  .ok ({ address := address, ident := ident, confirmation := conf,
         body := body }, r7)

/-- auto.rs `AutoEnroll::wait_step`: parse one acknowledge
(`Response::<AutoEnrollResponse>::from_wire`), then validate in order:
address and identifier together (`IncorrectData`), confirmation
(`BadConfirmation(code)`), step (`IncorrectData`); on success return the
model id together with the unconsumed remainder of the stream. -/
def AutoEnroll.waitStep (address : Nat) (step : AutoEnrollStep)
    (input : List Nat) : Except Error (Nat × List Nat) :=
  match Response.fromWire AutoEnrollResponse.fromWire input with
  | .error e => .error e
  | .ok (resp, rest) =>
    let good := (resp.address == address) &&
                (resp.ident == PackageIdentifier.AcknowledgePacket.toU8)
    if !good then .error .IncorrectData
    else if resp.confirmation ≠ .SuccessCode then
      .error (.BadConfirmation resp.confirmation)
    else if resp.body.step ≠ step then .error .IncorrectData
    else .ok (resp.body.model_id, rest)

/-- auto.rs `AutoEnroll::wait_collect_image1`:
`wait_step(address, CollectImage1).map(drop)`. -/
def AutoEnroll.wait_collect_image1 (address : Nat) (input : List Nat) :
    Except Error (Unit × List Nat) :=
  (AutoEnroll.waitStep address .CollectImage1 input).map
    (fun x => ((), x.2))

/-- auto.rs `AutoIdentify::wait_step`: identical validation order on a
`Response<AutoIdentifyResponse>`; on success return the whole body. -/
def AutoIdentify.waitStep (address : Nat) (step : AutoIdentifyStep)
    (input : List Nat) : Except Error (AutoIdentifyResponse × List Nat) :=
  match Response.fromWire AutoIdentifyResponse.fromWire input with
  | .error e => .error e
  | .ok (resp, rest) =>
    let good := (resp.address == address) &&
                (resp.ident == PackageIdentifier.AcknowledgePacket.toU8)
    if !good then .error .IncorrectData
    else if resp.confirmation ≠ .SuccessCode then
      .error (.BadConfirmation resp.confirmation)
    else if resp.body.step ≠ step then .error .IncorrectData
    else .ok (resp.body, rest)

/-- Folding one byte list after another equals folding their
concatenation: checksum updates compose along the wire. -/
theorem Checksum.update_append (c : Checksum) (xs ys : List Nat) :
    (c.update xs).update ys = c.update (xs ++ ys) := by
  simp [Checksum.update, List.foldl_append]

end Engine

end R503

deriving instance DecidableEq for Except

namespace R503

/-- C1: the spec says the emitted 16-bit length field equals the body byte
count (instruction plus payload) plus 2 for the checksum — for
`TempleteNum` that is 1 + 0 + 2 = 3.  lib.rs `Package::length` instead
stores the size of the entire frame (header, address, identifier, length
field, contents, checksum): it writes 12 for `TempleteNum`.  This theorem
evaluates the code at the failing input. -/
theorem legacy_length_field_is_whole_frame_size :
    (Legacy.templete_num.map Legacy.Package.length) = some 12 ∧
    1 + Legacy.Payload.len Legacy.Payload.TempleteNum + 2 = 3 ∧
    (12 : Nat) ≠ 3 := by
  refine ⟨rfl, rfl, by decide⟩

/-- C2: the spec says the transmitted checksum is
`(ID + LEN_hi + LEN_lo + Σ BODY) mod 2^16`.  lib.rs `Package::checksum`
sums only the identifier and length bytes and never adds the body (the
source reads `// TODO: Contents`): for the built `TempleteNum` package it
stores 13, while the claimed formula over the very same emitted fields
(identifier 0x01, length 12, body byte 0x1D) gives 42. -/
theorem legacy_checksum_omits_body_bytes :
    (Legacy.templete_num.map Legacy.Package.checksum) = some 13 ∧
    (Legacy.Identifier.Command.toU8 + 0 + 12 +
      Legacy.Instruction.TempleteNum.toU8) % 65536 = 42 ∧
    (13 : Nat) ≠ 42 := by
  refine ⟨rfl, rfl, by decide⟩

/-- C3: the claim (and the repository's own test
`tests/tests.rs::checksum_templete_packet`, which asserts checksum
`0x0021`) expects the built `TempleteNum` package to carry length
`0x0003` and checksum `0x0021`.  The code produces identifier `0x01`,
length 12 and checksum 13, so the claimed frame
`EF 01 FF FF FF FF 01 00 03 1D 00 21` is not what the code emits and the
in-repo test fails. -/
theorem legacy_templete_num_frame_mismatch :
    (Legacy.templete_num.map fun p =>
      (p.identifier.toU8, p.length, p.checksum)) = some (0x01, 12, 13) ∧
    (12 : Nat) ≠ 0x0003 ∧ (13 : Nat) ≠ 0x0021 := by
  refine ⟨rfl, by decide, by decide⟩

/-- C4 counterexample: byte `0x05` is not a defined confirmation-code
enumerant (the engine's total `TryFrom` rejects it), yet the legacy
lib.rs `ConfirmationCode::from` silently coerces it to the
`SystemReserved` default instead of failing. -/
theorem legacy_confirmation_from_coerces_unknown_byte :
    Legacy.ConfirmationCode.fromByte 0x05 =
      Legacy.ConfirmationCode.SystemReserved ∧
    Engine.ConfirmationCode.ofU8 0x05 = .error 0x05 := by
  exact ⟨rfl, rfl⟩

set_option maxRecDepth 100000

/-- C4 (amended): for every byte that is not a defined enumerant, the
`be_enum`-generated `FromWire` of each of the seven wire enumerations
fails with `Error::IncorrectData`; the legacy lib.rs
`ConfirmationCode::from`, however, maps every byte outside its explicit
match arms (every undefined byte, and 0xFF itself) to the
`SystemReserved` default instead of failing. -/
theorem be_enum_decode_rejects_unknown_bytes :
    (∀ b : Fin 256,
      Engine.enumFromWire Engine.PackageIdentifier.ofU8 [b.val]
          Engine.Checksum.init = .error .IncorrectData ↔
        ¬ ∃ v : Engine.PackageIdentifier, v.toU8 = b.val) ∧
    (∀ b : Fin 256,
      Engine.enumFromWire Engine.Commands.ofU8 [b.val]
          Engine.Checksum.init = .error .IncorrectData ↔
        ¬ ∃ v : Engine.Commands, v.toU8 = b.val) ∧
    (∀ b : Fin 256,
      Engine.enumFromWire Engine.ConfirmationCode.ofU8 [b.val]
          Engine.Checksum.init = .error .IncorrectData ↔
        ¬ ∃ v : Engine.ConfirmationCode, v.toU8 = b.val) ∧
    (∀ b : Fin 256,
      Engine.enumFromWire Engine.CharBufferId.ofU8 [b.val]
          Engine.Checksum.init = .error .IncorrectData ↔
        ¬ ∃ v : Engine.CharBufferId, v.toU8 = b.val) ∧
    (∀ b : Fin 256,
      Engine.enumFromWire Engine.AutoEnrollStep.ofU8 [b.val]
          Engine.Checksum.init = .error .IncorrectData ↔
        ¬ ∃ v : Engine.AutoEnrollStep, v.toU8 = b.val) ∧
    (∀ b : Fin 256,
      Engine.enumFromWire Engine.AuraControlCode.ofU8 [b.val]
          Engine.Checksum.init = .error .IncorrectData ↔
        ¬ ∃ v : Engine.AuraControlCode, v.toU8 = b.val) ∧
    (∀ b : Fin 256,
      Engine.enumFromWire Engine.AuraColorIndex.ofU8 [b.val]
          Engine.Checksum.init = .error .IncorrectData ↔
        ¬ ∃ v : Engine.AuraColorIndex, v.toU8 = b.val) ∧
    (∀ b : Fin 256,
      Legacy.ConfirmationCode.fromByte b.val =
          Legacy.ConfirmationCode.SystemReserved ↔
        (b.val = 0xFF ∨ ¬ ∃ v : Legacy.ConfirmationCode, v.toU8 = b.val)) := by
  refine ⟨?_, ?_, ?_, ?_, ?_, ?_, ?_, ?_⟩ <;> decide

/-- C5: a `wait_*` entry point of `AutoEnroll` performs exactly one
acknowledge parse; when that parse succeeds and §4.4 validation passes but
the decoded step differs from the step expected by the call, it returns
`Err(IncorrectData)` (first conjunct); when the step also matches it
returns the model id with exactly the one parsed frame consumed (second
conjunct); in particular, on a frame whose body decodes to step
`GenerateFeature1 (0x02)`, `wait_collect_image1` returns
`Err(IncorrectData)` (third conjunct). -/
theorem auto_enroll_wait_step_mismatch_incorrect_data :
    (∀ (address : Nat) (expected : Engine.AutoEnrollStep)
      (input rest : List Nat)
      (resp : Engine.Response Engine.AutoEnrollResponse),
      Engine.Response.fromWire Engine.AutoEnrollResponse.fromWire input =
        .ok (resp, rest) →
      resp.address = address →
      resp.ident = Engine.PackageIdentifier.AcknowledgePacket.toU8 →
      resp.confirmation = .SuccessCode →
      resp.body.step ≠ expected →
      Engine.AutoEnroll.waitStep address expected input =
        .error .IncorrectData) ∧
    (∀ (address : Nat) (expected : Engine.AutoEnrollStep)
      (input rest : List Nat)
      (resp : Engine.Response Engine.AutoEnrollResponse),
      Engine.Response.fromWire Engine.AutoEnrollResponse.fromWire input =
        .ok (resp, rest) →
      resp.address = address →
      resp.ident = Engine.PackageIdentifier.AcknowledgePacket.toU8 →
      resp.confirmation = .SuccessCode →
      resp.body.step = expected →
      Engine.AutoEnroll.waitStep address expected input =
        .ok (resp.body.model_id, rest)) ∧
    Engine.AutoEnroll.wait_collect_image1 0xFFFFFFFF
      [0xEF, 0x01, 0xFF, 0xFF, 0xFF, 0xFF, 0x07, 0x00, 0x06,
       0x00, 0x02, 0x00, 0x01, 0x00, 0x10] = .error .IncorrectData := by
  refine ⟨?_, ?_, ?_⟩
  · intro address expected input rest resp hparse haddr hident hconf hstep
    simp [Engine.AutoEnroll.waitStep, hparse, haddr, hident, hconf, hstep]
  · intro address expected input rest resp hparse haddr hident hconf hstep
    simp [Engine.AutoEnroll.waitStep, hparse, haddr, hident, hconf, hstep]
  · decide

/-- Witness for C5: the mismatch conjunct applied to the concrete frame
`EF 01 FF FF FF FF 07 00 06 00 02 00 01 00 10` (a valid acknowledge whose
body decodes to step `GenerateFeature1`) while `CollectImage1` is
expected. -/
theorem auto_enroll_wait_step_mismatch_witness :
    Engine.AutoEnroll.waitStep 0xFFFFFFFF .CollectImage1
      [0xEF, 0x01, 0xFF, 0xFF, 0xFF, 0xFF, 0x07, 0x00, 0x06,
       0x00, 0x02, 0x00, 0x01, 0x00, 0x10] = .error .IncorrectData :=
  auto_enroll_wait_step_mismatch_incorrect_data.1 0xFFFFFFFF .CollectImage1
    [0xEF, 0x01, 0xFF, 0xFF, 0xFF, 0xFF, 0x07, 0x00, 0x06,
     0x00, 0x02, 0x00, 0x01, 0x00, 0x10] []
    { address := 0xFFFFFFFF, ident := 0x07, confirmation := .SuccessCode,
      body := { step := .GenerateFeature1, model_id := 0x01 } }
    (by decide) rfl rfl rfl (by decide)

/-- C6: in both `AutoEnroll::wait_step` and `AutoIdentify::wait_step`, an
address or identifier mismatch yields `Err(IncorrectData)` regardless of
the confirmation code (conjuncts 1 and 3), and
`Err(BadConfirmation(code))` is produced exactly on the path where the
address matches, the identifier is `AcknowledgePacket`, and the
confirmation code is not success (conjuncts 2 and 4). -/
theorem auto_wait_step_validation_priority :
    (∀ (address : Nat) (expected : Engine.AutoEnrollStep)
      (input rest : List Nat)
      (resp : Engine.Response Engine.AutoEnrollResponse),
      Engine.Response.fromWire Engine.AutoEnrollResponse.fromWire input =
        .ok (resp, rest) →
      (resp.address ≠ address ∨
        resp.ident ≠ Engine.PackageIdentifier.AcknowledgePacket.toU8) →
      Engine.AutoEnroll.waitStep address expected input =
        .error .IncorrectData) ∧
    (∀ (address : Nat) (expected : Engine.AutoEnrollStep)
      (input rest : List Nat)
      (resp : Engine.Response Engine.AutoEnrollResponse),
      Engine.Response.fromWire Engine.AutoEnrollResponse.fromWire input =
        .ok (resp, rest) →
      resp.address = address →
      resp.ident = Engine.PackageIdentifier.AcknowledgePacket.toU8 →
      resp.confirmation ≠ .SuccessCode →
      Engine.AutoEnroll.waitStep address expected input =
        .error (.BadConfirmation resp.confirmation)) ∧
    (∀ (address : Nat) (expected : Engine.AutoIdentifyStep)
      (input rest : List Nat)
      (resp : Engine.Response Engine.AutoIdentifyResponse),
      Engine.Response.fromWire Engine.AutoIdentifyResponse.fromWire input =
        .ok (resp, rest) →
      (resp.address ≠ address ∨
        resp.ident ≠ Engine.PackageIdentifier.AcknowledgePacket.toU8) →
      Engine.AutoIdentify.waitStep address expected input =
        .error .IncorrectData) ∧
    (∀ (address : Nat) (expected : Engine.AutoIdentifyStep)
      (input rest : List Nat)
      (resp : Engine.Response Engine.AutoIdentifyResponse),
      Engine.Response.fromWire Engine.AutoIdentifyResponse.fromWire input =
        .ok (resp, rest) →
      resp.address = address →
      resp.ident = Engine.PackageIdentifier.AcknowledgePacket.toU8 →
      resp.confirmation ≠ .SuccessCode →
      Engine.AutoIdentify.waitStep address expected input =
        .error (.BadConfirmation resp.confirmation)) := by
  refine ⟨?_, ?_, ?_, ?_⟩
  · intro address expected input rest resp hparse hbad
    rcases hbad with h | h <;>
      simp [Engine.AutoEnroll.waitStep, hparse, h]
  · intro address expected input rest resp hparse haddr hident hconf
    simp [Engine.AutoEnroll.waitStep, hparse, haddr, hident, hconf]
  · intro address expected input rest resp hparse hbad
    rcases hbad with h | h <;>
      simp [Engine.AutoIdentify.waitStep, hparse, h]
  · intro address expected input rest resp hparse haddr hident hconf
    simp [Engine.AutoIdentify.waitStep, hparse, haddr, hident, hconf]

/-- Witness for C6: the address-mismatch conjunct applied to a concrete
acknowledge frame carrying device address `0x00000001` while the machine
is configured for `0xFFFFFFFF`. -/
theorem auto_wait_step_validation_priority_witness :
    Engine.AutoEnroll.waitStep 0xFFFFFFFF .CollectImage1
      [0xEF, 0x01, 0x00, 0x00, 0x00, 0x01, 0x07, 0x00, 0x06,
       0x00, 0x01, 0x00, 0x01, 0x00, 0x0F] = .error .IncorrectData :=
  auto_wait_step_validation_priority.1 0xFFFFFFFF .CollectImage1
    [0xEF, 0x01, 0x00, 0x00, 0x00, 0x01, 0x07, 0x00, 0x06,
     0x00, 0x01, 0x00, 0x01, 0x00, 0x0F] []
    { address := 0x00000001, ident := 0x07, confirmation := .SuccessCode,
      body := { step := .CollectImage1, model_id := 0x01 } }
    (by decide) (Or.inl (by decide))

/-- C7: every `ToWire` implementation emits exactly `size_on_wire()` bytes
and, when a checksum accumulator is supplied, folds exactly those bytes
into it in wire order: `u8`/`u16`/`u32` emit 1/2/4 bytes, unit emits 0,
byte slices and arrays emit their length, each `be_enum` enumeration and
`AuraCycleCount` emit 1 byte, `AuraControlPayload` emits 4, and
`AutoEnrollConfig` / `AutoIdentifyConfig` emit 5. -/
theorem to_wire_writes_exactly_size_on_wire :
    (∀ (n : Nat) (c : Engine.Checksum),
      (Engine.u8ToWireRun n c).1.length = 1 ∧
      (Engine.u8ToWireRun n c).2 = c.update (Engine.u8ToWireRun n c).1) ∧
    (∀ (n : Nat) (c : Engine.Checksum),
      (Engine.u16ToWireRun n c).1.length = 2 ∧
      (Engine.u16ToWireRun n c).2 = c.update (Engine.u16ToWireRun n c).1) ∧
    (∀ (n : Nat) (c : Engine.Checksum),
      (Engine.u32ToWireRun n c).1.length = 4 ∧
      (Engine.u32ToWireRun n c).2 = c.update (Engine.u32ToWireRun n c).1) ∧
    (∀ c : Engine.Checksum,
      (Engine.unitToWireRun c).1.length = 0 ∧
      (Engine.unitToWireRun c).2 = c.update (Engine.unitToWireRun c).1) ∧
    (∀ (l : List Nat) (c : Engine.Checksum),
      (Engine.bytesToWireRun l c).1.length = l.length ∧
      (Engine.bytesToWireRun l c).2 = c.update (Engine.bytesToWireRun l c).1) ∧
    (∀ (v : Engine.PackageIdentifier) (c : Engine.Checksum),
      (v.toWireRun c).1.length = 1 ∧
      (v.toWireRun c).2 = c.update (v.toWireRun c).1) ∧
    (∀ (v : Engine.Commands) (c : Engine.Checksum),
      (v.toWireRun c).1.length = 1 ∧
      (v.toWireRun c).2 = c.update (v.toWireRun c).1) ∧
    (∀ (v : Engine.ConfirmationCode) (c : Engine.Checksum),
      (v.toWireRun c).1.length = 1 ∧
      (v.toWireRun c).2 = c.update (v.toWireRun c).1) ∧
    (∀ (v : Engine.CharBufferId) (c : Engine.Checksum),
      (v.toWireRun c).1.length = 1 ∧
      (v.toWireRun c).2 = c.update (v.toWireRun c).1) ∧
    (∀ (v : Engine.AutoEnrollStep) (c : Engine.Checksum),
      (v.toWireRun c).1.length = 1 ∧
      (v.toWireRun c).2 = c.update (v.toWireRun c).1) ∧
    (∀ (v : Engine.AuraControlCode) (c : Engine.Checksum),
      (v.toWireRun c).1.length = 1 ∧
      (v.toWireRun c).2 = c.update (v.toWireRun c).1) ∧
    (∀ (v : Engine.AuraColorIndex) (c : Engine.Checksum),
      (v.toWireRun c).1.length = 1 ∧
      (v.toWireRun c).2 = c.update (v.toWireRun c).1) ∧
    (∀ (v : Engine.AuraCycleCount) (c : Engine.Checksum),
      (v.toWireRun c).1.length = 1 ∧
      (v.toWireRun c).2 = c.update (v.toWireRun c).1) ∧
    (∀ (p : Engine.AuraControlPayload) (c : Engine.Checksum),
      (p.toWireRun c).1.length = 4 ∧
      (p.toWireRun c).2 = c.update (p.toWireRun c).1) ∧
    (∀ (cfg : Engine.AutoEnrollConfig) (c : Engine.Checksum),
      (cfg.toWireRun c).1.length = 5 ∧
      (cfg.toWireRun c).2 = c.update (cfg.toWireRun c).1) ∧
    (∀ (cfg : Engine.AutoIdentifyConfig) (c : Engine.Checksum),
      (cfg.toWireRun c).1.length = 5 ∧
      (cfg.toWireRun c).2 = c.update (cfg.toWireRun c).1) := by
  refine ⟨fun n c => ⟨rfl, rfl⟩, fun n c => ⟨rfl, rfl⟩, fun n c => ⟨rfl, rfl⟩,
    fun c => ⟨rfl, rfl⟩, fun l c => ⟨rfl, rfl⟩, fun v c => ⟨rfl, rfl⟩,
    fun v c => ⟨rfl, rfl⟩, fun v c => ⟨rfl, rfl⟩, fun v c => ⟨rfl, rfl⟩,
    fun v c => ⟨rfl, rfl⟩, fun v c => ⟨rfl, rfl⟩, fun v c => ⟨rfl, rfl⟩,
    fun v c => ⟨rfl, rfl⟩, ?_, fun cfg c => ⟨rfl, rfl⟩,
    fun cfg c => ⟨rfl, rfl⟩⟩
  intro p c
  cases p with
  | mk ctrl speed color count =>
    cases count <;>
      simp [Engine.AuraControlPayload.toWireRun,
        Engine.AuraControlCode.toWireRun, Engine.AuraColorIndex.toWireRun,
        Engine.AuraCycleCount.toWireRun, Engine.u8ToWireRun,
        Engine.Checksum.update_append]

/-- C8: for every variant of the seven `be_enum` wire enumerations,
converting to the wire integer and back with `TryFrom` yields `Ok` of the
same variant, and the variant-to-integer conversion is injective. -/
theorem be_enum_round_trip_and_injective :
    (∀ v : Engine.PackageIdentifier,
      Engine.PackageIdentifier.ofU8 v.toU8 = .ok v) ∧
    (∀ v w : Engine.PackageIdentifier, v.toU8 = w.toU8 ↔ v = w) ∧
    (∀ v : Engine.Commands, Engine.Commands.ofU8 v.toU8 = .ok v) ∧
    (∀ v w : Engine.Commands, v.toU8 = w.toU8 ↔ v = w) ∧
    (∀ v : Engine.ConfirmationCode,
      Engine.ConfirmationCode.ofU8 v.toU8 = .ok v) ∧
    (∀ v w : Engine.ConfirmationCode, v.toU8 = w.toU8 ↔ v = w) ∧
    (∀ v : Engine.CharBufferId, Engine.CharBufferId.ofU8 v.toU8 = .ok v) ∧
    (∀ v w : Engine.CharBufferId, v.toU8 = w.toU8 ↔ v = w) ∧
    (∀ v : Engine.AutoEnrollStep,
      Engine.AutoEnrollStep.ofU8 v.toU8 = .ok v) ∧
    (∀ v w : Engine.AutoEnrollStep, v.toU8 = w.toU8 ↔ v = w) ∧
    (∀ v : Engine.AuraControlCode,
      Engine.AuraControlCode.ofU8 v.toU8 = .ok v) ∧
    (∀ v w : Engine.AuraControlCode, v.toU8 = w.toU8 ↔ v = w) ∧
    (∀ v : Engine.AuraColorIndex,
      Engine.AuraColorIndex.ofU8 v.toU8 = .ok v) ∧
    (∀ v w : Engine.AuraColorIndex, v.toU8 = w.toU8 ↔ v = w) := by
  refine ⟨?_, ?_, ?_, ?_, ?_, ?_, ?_, ?_, ?_, ?_, ?_, ?_, ?_, ?_⟩ <;> decide

/-- C9: `Driver::write_notepad` always panics: the `WriteNotepad` payload
length is `size_of::<(u8, [u8; 512])>() = 513`, so `Package::length`
computes 12 + 513 = 525 and its `assert!(length <= 256)` fails (modelled
as `none`); in general `Package::build` panics exactly when the computed
frame length 12 + payload length exceeds 256. -/
theorem write_notepad_always_panics :
    (∀ (n : Nat) (content : List Nat), Legacy.write_notepad n content = none) ∧
    (∀ (n : Nat) (content : List Nat),
      Legacy.Payload.len (Legacy.Payload.WriteNotepad n content) = 513) ∧
    (∀ (id : Legacy.Identifier) (instr : Legacy.Instruction)
      (payload : Legacy.Payload),
      Legacy.Package.build id instr payload = none ↔
        256 < 12 + Legacy.Payload.len payload) := by
  refine ⟨fun n content => rfl, fun n content => rfl, ?_⟩
  intro id instr payload
  unfold Legacy.Package.build Legacy.Package.runLength
  simp only [Legacy.Package.lengthComputed, Legacy.Data.len]
  split
  · rename_i h
    simp at h ⊢
    omega
  · rename_i h
    simp at h ⊢
    omega

/-- C10: `AutoEnrollLocation::specific(loc)` is `Some` exactly on the
half-open Rust range `0x00..0xC8`, i.e. for bytes up to `0xC7`, and `None`
from `0xC8` upward, while `AutoEnrollLocation::automatic()` carries the
sentinel `0xC8`. -/
theorem auto_enroll_location_specific_range :
    (∀ loc : Fin 256,
      ((Engine.AutoEnrollLocation.specific loc.val).isSome ↔
        loc.val ≤ 0xC7) ∧
      (Engine.AutoEnrollLocation.specific loc.val = none ↔
        0xC8 ≤ loc.val)) ∧
    Engine.AutoEnrollLocation.automatic.val = 0xC8 := by
  exact ⟨by decide, rfl⟩

end R503
